import Mathlib

/-!
Verification of the imgurl device-driver corpus against its specification.
Each driver's relevant handlers are shallowly embedded as pure Lean
functions; external effects (camera reads, BACnet calls, MQTT publishes)
are modelled as explicit inputs or recorded outputs.
-/

namespace RtspCamera

/-- Model of a cv2.VideoCapture handle: the only observation the driver makes
of it is `isOpened()`. -/
structure Cap where
  opened : Bool
deriving DecidableEq, Repr

/-- Image data flowing through the driver: raw frames as returned by
`capture.read()`, and JPEG bytes as produced by `cv2.imencode`. Frames are
identified by a natural number. -/
inductive Img where
  | raw : Nat → Img
  | jpeg : Nat → Img
deriving DecidableEq, Repr

/-- Model of `cv2.imencode('.jpg', frame)`: turns image data into JPEG bytes. -/
def imencode : Img → Img
  | .raw n => .jpeg n
  | .jpeg n => .jpeg n

/-- State of the `RTSPStream` object (`driver.py`, class RTSPStream), plus a
count of live `_update_frames` threads.  The mutex serialises all operations,
so each operation is a function on this state. -/
structure StreamState where
  capture : Option Cap
  streaming : Bool
  lastFrame : Option Img
  threadCount : Nat
deriving DecidableEq, Repr

/-- The initial state built by `RTSPStream.__init__`. -/
def initState : StreamState :=
  { capture := none, streaming := false, lastFrame := none, threadCount := 0 }

/-- Embedding of `RTSPStream.start_stream`.  `newOpens` is the environment's
answer to whether the freshly constructed `cv2.VideoCapture` reports
`isOpened()` within the 10 polling attempts.  Returns the Python return value
and the successor state; a successful start spawns one `_update_frames`
thread (`threadCount + 1`). -/
def start_stream (s : StreamState) (newOpens : Bool) : Bool × StreamState :=
  if s.streaming && (match s.capture with | some c => c.opened | none => false) then
    (true, s)
  else if newOpens then
    (true, { s with capture := some ⟨true⟩, streaming := true,
                    threadCount := s.threadCount + 1 })
  else
    (false, { s with capture := none, streaming := false })

/-- Embedding of one iteration of the `_update_frames` loop body (the region
under `with self.lock`).  `readOk`/`frame` model the result of
`self.capture.read()`.  Both `break` paths end the thread, which we record by
decrementing `threadCount`. -/
def update_frames_iter (s : StreamState) (readOk : Bool) (frame : Nat) :
    StreamState :=
  if !s.streaming || s.capture.isNone then
    { s with threadCount := s.threadCount - 1 }
  else if !readOk then
    { s with streaming := false, capture := none,
             threadCount := s.threadCount - 1 }
  else
    { s with lastFrame := some (Img.raw frame) }

/-- Embedding of `RTSPStream.stop_stream`: releases the capture, clears the
flag and the buffered frame.  It does not join or signal the capture thread,
so `threadCount` is untouched. -/
def stop_stream (s : StreamState) : StreamState :=
  { s with capture := none, streaming := false, lastFrame := none }

/-- Embedding of `RTSPStream.get_snapshot`.  `tmpOpen`/`tmpRead` model the
throwaway `cv2.VideoCapture` used when not streaming; `capRead` models
`self.capture.read()` used when streaming but no frame is buffered.  The
function mutates nothing: it only returns the frame, or `none`. -/
def get_snapshot (s : StreamState) (tmpOpen : Bool) (tmpRead : Option Nat)
    (capRead : Option Nat) : Option Img :=
  if !s.streaming || s.capture.isNone then
    if !tmpOpen then none
    else match tmpRead with
      | none => none
      | some f => some (Img.raw f)
  else match s.lastFrame with
    | some f => some f
    | none => match capRead with
      | none => none
      | some f => some (Img.raw f)

end RtspCamera

namespace RtspCamera

/-- What the MJPEG generator observes of the shared state each time it takes
the lock, together with whether `cv2.imencode` succeeds on that frame. -/
structure StreamObs where
  streaming : Bool
  capture : Option Cap
  lastFrame : Option Img
  encodeOk : Bool
deriving DecidableEq, Repr

/-- The generator's exit condition: `not self.streaming or self.capture is
None`. -/
def stopObs (o : StreamObs) : Bool :=
  !o.streaming || o.capture.isNone

/-- Embedding of `RTSPStream.get_mjpeg_generator`: given the sequence of
state observations, the list of multipart chunks it yields, each chunk
carrying the JPEG encoding of the buffered frame.  A `none` buffer or a
failed encode yields nothing for that observation (`continue`); a stop
observation ends the generator. -/
def mjpegChunks : List StreamObs → List Img
  | [] => []
  | o :: rest =>
    if stopObs o then []
    else match o.lastFrame with
      | none => mjpegChunks rest
      | some f => if o.encodeOk then imencode f :: mjpegChunks rest
                  else mjpegChunks rest

/-- Body of an HTTP response from the camera driver. -/
inductive HttpBody where
  | jpegImage : Img → HttpBody
  | text : String → HttpBody
  | multipart : List Img → HttpBody
deriving DecidableEq, Repr

/-- The JSON body sent when a snapshot cannot be fetched. -/
def snapshotErrBody : String :=
  "\x7b\"error\":\"Unable to fetch snapshot from camera\"\x7d"

/-- The JSON body sent when JPEG encoding fails. -/
def encodeErrBody : String :=
  "\x7b\"error\":\"Failed to encode JPEG\"\x7d"

/-- The JSON body sent when the stream cannot be started. -/
def startErrBody : String :=
  "\x7b\"error\":\"Unable to start camera stream\"\x7d"

/-- Embedding of the `/snapshot` branch of `CameraRequestHandler.do_GET`:
status code, content type and body as a function of the snapshot result and
of whether `cv2.imencode` succeeds. -/
def do_GET_snapshot (snap : Option Img) (encOk : Bool) :
    Nat × String × HttpBody :=
  match snap with
  | none => (500, "application/json", .text snapshotErrBody)
  | some f =>
    if encOk then (200, "image/jpeg", .jpegImage (imencode f))
    else (500, "application/json", .text encodeErrBody)

/-- Embedding of the `/stream.mjpg` branch of `CameraRequestHandler.do_GET`:
if the stream is not active the handler first calls `start_stream` (whose
outcome is `startOk`); on failure it answers 500, otherwise 200 with the
multipart stream produced by the generator over the observation trace. -/
def do_GET_stream (streaming : Bool) (startOk : Bool)
    (obs : List StreamObs) : Nat × String × HttpBody :=
  if !streaming && !startOk then
    (500, "application/json", .text startErrBody)
  else
    (200, "multipart/x-mixed-replace; boundary=--frame",
     .multipart (mjpegChunks obs))

/-- Operations of the stream state machine: an HTTP-triggered start, a stop,
one iteration of a live capture thread, and a snapshot (which never writes
the shared state). -/
inductive Reachable : StreamState → Prop where
  | init : Reachable initState
  | start {s : StreamState} (o : Bool) :
      Reachable s → Reachable (start_stream s o).2
  | stop {s : StreamState} :
      Reachable s → Reachable (stop_stream s)
  | iter {s : StreamState} (readOk : Bool) (f : Nat) :
      Reachable s → 1 ≤ s.threadCount →
      Reachable (update_frames_iter s readOk f)

end RtspCamera

namespace BacnetHvac

/-- A JSON value appearing in the driver's response dicts: a number read from
the device, or a string such as "ok" or "error: ...". -/
inductive JEntry where
  | num : Int → JEntry
  | str : String → JEntry
deriving DecidableEq, Repr

/-- The `SENSOR_POINTS` table of `driver.py`: (object_type, instance_number,
property_id, readable_name). -/
def SENSOR_POINTS : List (String × Nat × String × String) :=
  [("analogInput", 1, "presentValue", "temperature"),
   ("analogInput", 2, "presentValue", "humidity"),
   ("analogInput", 3, "presentValue", "co2"),
   ("analogValue", 1, "presentValue", "setpoint")]

/-- The `CONTROL_POINTS` table of `driver.py`. -/
def CONTROL_POINTS : List (String × Nat × String × String) :=
  [("analogValue", 1, "presentValue", "setpoint"),
   ("binaryValue", 1, "presentValue", "fan")]

/-- A JSON request body, modelled as an association list from names to the
numeric values the control endpoint forwards. -/
abbrev Payload := List (String × Int)

/-- One recorded call to `BACnetClient.write_property`. -/
structure WriteCall where
  objType : String
  inst : Nat
  prop : String
  value : Int
deriving DecidableEq, Repr

/-- The loop body of `api_control` over a list of control points: for each
point whose readable name occurs in the payload, one `write_property` call is
issued with the point's coordinates and the payload value, and a result entry
is recorded ("ok" on success, "error: ..." when the device raises).  `wdev`
models the device's reaction to each write. -/
def controlLoop (payload : Payload)
    (wdev : String → Nat → String → Int → Except String Bool) :
    List (String × Nat × String × String) →
    List WriteCall × List (String × JEntry)
  | [] => ([], [])
  | (t, i, p, n) :: rest =>
    match payload.lookup n with
    | none => controlLoop payload wdev rest
    | some v =>
      let entry : String × JEntry :=
        match wdev t i p v with
        | .ok _ => (n, .str "ok")
        | .error e => (n, .str ("error: " ++ e))
      let tail := controlLoop payload wdev rest
      (⟨t, i, p, v⟩ :: tail.1, entry :: tail.2)

/-- Embedding of the `POST /api/control` handler `api_control`: the write
calls it issues, the JSON result dict, and the HTTP status (the loop catches
every device exception per point, so the status is always 200). -/
def api_control (payload : Payload)
    (wdev : String → Nat → String → Int → Except String Bool) :
    List WriteCall × List (String × JEntry) × Nat :=
  let out := controlLoop payload wdev CONTROL_POINTS
  (out.1, out.2, 200)

/-- The loop body of `api_data` over the sensor points: each
`read_property` outcome becomes either a numeric entry or an
"error: ..." string entry under the point's readable name. -/
def dataLoop (dev : String → Nat → String → Except String Int) :
    List (String × Nat × String × String) → List (String × JEntry)
  | [] => []
  | (t, i, p, n) :: rest =>
    (match dev t i p with
     | .ok v => (n, JEntry.num v)
     | .error e => (n, JEntry.str ("error: " ++ e))) :: dataLoop dev rest

/-- Embedding of the `GET /api/data` handler `api_data`: the JSON result and
the HTTP status.  Per-point exceptions are swallowed inside the loop, so the
outer `except` never fires and the status is always 200. -/
def api_data (dev : String → Nat → String → Except String Int) :
    List (String × JEntry) × Nat :=
  (dataLoop dev SENSOR_POINTS, 200)

end BacnetHvac

namespace Wheeltec

/-- The optional x/y/z sub-object of a velocity request body. -/
structure Vec3Body where
  x : Option Int
  y : Option Int
  z : Option Int
deriving DecidableEq, Repr

/-- The JSON body of a `POST /commands/vel` request: optional `linear` and
`angular` objects. -/
structure CmdBody where
  linear : Option Vec3Body
  angular : Option Vec3Body
deriving DecidableEq, Repr

/-- A populated 3-vector of a ROS `Twist` message. -/
structure Vec3 where
  x : Int
  y : Int
  z : Int
deriving DecidableEq, Repr

/-- A ROS `geometry_msgs/Twist` message. -/
structure Twist where
  linear : Vec3
  angular : Vec3
deriving DecidableEq, Repr

/-- The empty dict used as default by `data.get('linear', {})`. -/
def emptyVec : Vec3Body := ⟨none, none, none⟩

/-- Embedding of `ROS2Bridge.send_cmd_vel`: builds the `Twist` published on
`/cmd_vel`, each component via `data.get(section, {}).get(axis, 0.0)`. -/
def send_cmd_vel (data : CmdBody) : Twist :=
  let lin := data.linear.getD emptyVec
  let ang := data.angular.getD emptyVec
  { linear := ⟨lin.x.getD 0, lin.y.getD 0, lin.z.getD 0⟩,
    angular := ⟨ang.x.getD 0, ang.y.getD 0, ang.z.getD 0⟩ }

/-- The spec's reading of the velocity forwarding: each of the six components
equals the corresponding field of the request body, with 0 substituted for
every absent field (absent sub-object or absent axis). -/
def specTwist (data : CmdBody) : Twist :=
  { linear := ⟨(data.linear.bind Vec3Body.x).getD 0,
               (data.linear.bind Vec3Body.y).getD 0,
               (data.linear.bind Vec3Body.z).getD 0⟩,
    angular := ⟨(data.angular.bind Vec3Body.x).getD 0,
                (data.angular.bind Vec3Body.y).getD 0,
                (data.angular.bind Vec3Body.z).getD 0⟩ }

end Wheeltec

namespace EnvMonitor

/-- The in-memory device state dict of the smart environmental monitoring
driver (`driver.py`, `state`). -/
structure EnvState where
  temperature : Rat
  humidity : Int
  airquality : List (String × Int)
  battery : Int
  statusD : List (String × String)
  led_brightness : Int
  buzzer : String
  alarm_threshold : List (String × Int)
  alarm_active : Bool
deriving DecidableEq, Repr

/-- An acknowledgement payload published by `on_message`. -/
inductive Ack where
  | okBuzzer : String → Ack
  | okThreshold : List (String × Int) → Ack
  | errAck : Ack
deriving DecidableEq, Repr

/-- Python `dict.update`: keys of `base` keep their position and take the
updated value when present in `upd`; keys new in `upd` are appended. -/
def dictUpdate (base upd : List (String × Int)) : List (String × Int) :=
  base.map (fun kv => (kv.1, (upd.lookup kv.1).getD kv.2)) ++
    upd.filter (fun kv => (base.lookup kv.1).isNone)

/-- Embedding of the `device/config/buzzer` branch of `on_message`: the new
state and the (topic, payload) of the published ack. -/
def on_message_buzzer (st : EnvState) (payload : String) :
    EnvState × String × Ack :=
  if payload = "ENABLE" || payload = "DISABLE" then
    ({ st with buzzer := payload }, "device/config/buzzer/ack",
     .okBuzzer payload)
  else
    (st, "device/config/buzzer/ack", .errAck)

/-- Embedding of the `device/config/alarm_threshold` branch of `on_message`.
`parsed` models the outcome of `json.loads(payload)` as a JSON object:
`none` when parsing raises (malformed payload or non-object). -/
def on_message_alarm_threshold (st : EnvState)
    (parsed : Option (List (String × Int))) : EnvState × String × Ack :=
  match parsed with
  | some data =>
    let merged := dictUpdate st.alarm_threshold data
    ({ st with alarm_threshold := merged },
     "device/config/alarm_threshold/ack", .okThreshold merged)
  | none =>
    (st, "device/config/alarm_threshold/ack", .errAck)

end EnvMonitor

namespace Hikvision

/-- Result dict of `DeviceShifuDriver.handle_device_request`: either the
device response parsed as JSON, or an `error` object. -/
inductive DevResp where
  | jsonOf : String → DevResp
  | errObj : String → DevResp
deriving DecidableEq, Repr

/-- Outcome of one HTTP exchange with the decoder via the connector: a
response with status and text/json, a `requests` exception, or another
exception. -/
inductive DevOutcome where
  | resp : Nat → String → DevOutcome
  | reqExc : String → DevOutcome
  | otherExc : String → DevOutcome
deriving DecidableEq, Repr

/-- Dispatch common to the manage/config/status/decode branches: a 200
device response is returned as parsed JSON, any other status as
(`error`: text, status); exceptions map to 504/500 error pairs. -/
def respOf (o : DevOutcome) : DevResp × Nat :=
  match o with
  | .resp 200 body => (.jsonOf body, 200)
  | .resp code text => (.errObj text, code)
  | .reqExc e => (.errObj ("Device communication error: " ++ e), 504)
  | .otherExc e => (.errObj e, 500)

/-- Embedding of `DeviceShifuDriver.handle_device_request`.  `connected`
is `self.connector and self.connector.connected`; `reconnectOk` the outcome
of the single `connect_device()` retry; `outcome` the device exchange for
the instruction.  Instructions manage/config/decode accept POST, status
accepts GET; anything else is 404, and a method mismatch falls through to
the final `(\x7b"error": "Unhandled error"\x7d, 500)`. -/
def handle_device_request (connected : Bool) (reconnectOk : Bool)
    (instruction : String) (method : String) (outcome : DevOutcome) :
    DevResp × Nat :=
  if !connected && !reconnectOk then
    (.errObj "Device not connected", 503)
  else if instruction = "manage" || instruction = "config" ||
          instruction = "decode" then
    if method = "POST" then respOf outcome
    else (.errObj "Unhandled error", 500)
  else if instruction = "status" then
    if method = "GET" then respOf outcome
    else (.errObj "Unhandled error", 500)
  else
    (.errObj "Unknown instruction", 404)

end Hikvision

namespace DeviceNetworkSdk

/-- Embedding of the connection loop of `DeviceShifuMQTTDriver.connect_mqtt`
with the shutdown flag unset: each list element is the outcome of one
`self.mqtt_client.connect(...)` call (`true` = no exception, `break`;
`false` = exception, sleep 5 s and loop).  The result counts the connect
calls issued over that outcome trace. -/
def connectAttempts : List Bool → Nat
  | [] => 0
  | ok :: rest => if ok then 1 else 1 + connectAttempts rest

/-- Embedding of the reconnection loop of
`DeviceShifuMQTTDriver.on_disconnect` with the shutdown flag unset: the
number of `self.mqtt_client.reconnect()` calls issued over a trace of
outcomes. -/
def reconnectAttempts : List Bool → Nat
  | [] => 0
  | ok :: rest => if ok then 1 else 1 + reconnectAttempts rest

end DeviceNetworkSdk

open RtspCamera in
/-- C1: for the rtsp_camera driver, stream start/stop is idempotent: in any
state with `streaming` true and an open capture, `start_stream` returns True
and leaves the whole state (including the thread count) unchanged; and
`stop_stream` always leaves `streaming` False, `capture` None and
`last_frame` None, so a second consecutive `stop_stream` is a no-op. -/
theorem rtsp_start_stop_idempotent :
    (∀ (s : StreamState) (c : Cap) (newOpens : Bool),
      s.streaming = true → s.capture = some c → c.opened = true →
      start_stream s newOpens = (true, s)) ∧
    (∀ s : StreamState,
      (stop_stream s).streaming = false ∧
      (stop_stream s).capture = none ∧
      (stop_stream s).lastFrame = none ∧
      stop_stream (stop_stream s) = stop_stream s) := by
  constructor
  · intro s c newOpens hs hc ho
    simp [start_stream, hs, hc, ho]
  · intro s
    refine ⟨rfl, rfl, rfl, rfl⟩

open RtspCamera in
/-- Witness for C1 at a concrete streaming state with an open capture. -/
theorem rtsp_start_stop_idempotent_witness :
    start_stream ⟨some ⟨true⟩, true, some (Img.raw 3), 1⟩ false
      = (true, ⟨some ⟨true⟩, true, some (Img.raw 3), 1⟩) ∧
    stop_stream (stop_stream ⟨some ⟨true⟩, true, some (Img.raw 3), 1⟩)
      = stop_stream ⟨some ⟨true⟩, true, some (Img.raw 3), 1⟩ :=
  ⟨rtsp_start_stop_idempotent.1 ⟨some ⟨true⟩, true, some (Img.raw 3), 1⟩
      ⟨true⟩ false rfl rfl rfl,
   (rtsp_start_stop_idempotent.2 ⟨some ⟨true⟩, true, some (Img.raw 3), 1⟩).2.2.2⟩

open RtspCamera Hikvision in
/-- C2: an unreachable device yields a 5xx response: when `get_snapshot`
returns None, `GET /snapshot` answers 500 with the exact JSON error body;
and a hikvision_decoder instruction request issued while disconnected and
with a failed reconnection returns (error object "Device not connected",
503). -/
theorem disconnected_device_5xx :
    (∀ (s : StreamState) (tmpOpen : Bool) (tmpRead capRead : Option Nat)
        (encOk : Bool),
      get_snapshot s tmpOpen tmpRead capRead = none →
      do_GET_snapshot (get_snapshot s tmpOpen tmpRead capRead) encOk
        = (500, "application/json", .text snapshotErrBody)) ∧
    (∀ (instruction method : String) (outcome : DevOutcome),
      handle_device_request false false instruction method outcome
        = (.errObj "Device not connected", 503)) := by
  constructor
  · intro s tmpOpen tmpRead capRead encOk h
    rw [h]
    rfl
  · intro instruction method outcome
    rfl

open RtspCamera Hikvision in
/-- Witness for C2: the initial state with a camera that cannot be opened,
and a status request while disconnected. -/
theorem disconnected_device_5xx_witness :
    do_GET_snapshot (get_snapshot initState false none none) true
      = (500, "application/json", .text snapshotErrBody) ∧
    handle_device_request false false "status" "GET" (.resp 200 "ok")
      = (.errObj "Device not connected", 503) :=
  ⟨disconnected_device_5xx.1 initState false none none true rfl,
   disconnected_device_5xx.2 "status" "GET" (.resp 200 "ok")⟩

open BacnetHvac Wheeltec in
/-- C3: a well-formed control request is forwarded with equivalent
parameters: for every CONTROL_POINTS entry whose name occurs in the JSON
body, `api_control` issues exactly one `write_property` call carrying that
entry's object type, instance and property together with the unmodified
payload value, and no write for that entry when the name is absent; and
`send_cmd_vel` publishes a Twist whose six components equal the body's
linear/angular x,y,z fields with 0 substituted for absent fields. -/
theorem control_request_forwarded :
    (∀ (payload : Payload)
        (wdev : String → Nat → String → Int → Except String Bool)
        (t : String) (i : Nat) (p n : String),
      (t, i, p, n) ∈ CONTROL_POINTS →
      (∀ v : Int, payload.lookup n = some v →
        (api_control payload wdev).1.count ⟨t, i, p, v⟩ = 1) ∧
      (payload.lookup n = none →
        ∀ v : Int, WriteCall.mk t i p v ∉ (api_control payload wdev).1)) ∧
    (∀ data : CmdBody, send_cmd_vel data = specTwist data) := by
  constructor
  · intro payload wdev t i p n hmem
    simp only [CONTROL_POINTS, List.mem_cons, List.not_mem_nil, or_false,
      Prod.mk.injEq] at hmem
    rcases hmem with ⟨rfl, rfl, rfl, rfl⟩ | ⟨rfl, rfl, rfl, rfl⟩
    · constructor
      · intro v hv
        cases hf : payload.lookup "fan" with
        | none =>
          cases hw : wdev "analogValue" 1 "presentValue" v <;>
            simp [api_control, controlLoop, CONTROL_POINTS, hv, hf, hw,
              List.count_cons]
        | some w =>
          cases hw : wdev "analogValue" 1 "presentValue" v <;>
          cases hw2 : wdev "binaryValue" 1 "presentValue" w <;>
            simp [api_control, controlLoop, CONTROL_POINTS, hv, hf, hw, hw2,
              List.count_cons]
      · intro hv v
        cases hf : payload.lookup "fan" with
        | none =>
          simp [api_control, controlLoop, CONTROL_POINTS, hv, hf]
        | some w =>
          cases hw2 : wdev "binaryValue" 1 "presentValue" w <;>
            simp [api_control, controlLoop, CONTROL_POINTS, hv, hf, hw2]
    · constructor
      · intro v hv
        cases hs : payload.lookup "setpoint" with
        | none =>
          cases hw : wdev "binaryValue" 1 "presentValue" v <;>
            simp [api_control, controlLoop, CONTROL_POINTS, hv, hs, hw,
              List.count_cons]
        | some w =>
          cases hw : wdev "binaryValue" 1 "presentValue" v <;>
          cases hw2 : wdev "analogValue" 1 "presentValue" w <;>
            simp [api_control, controlLoop, CONTROL_POINTS, hv, hs, hw, hw2,
              List.count_cons]
      · intro hv v
        cases hs : payload.lookup "setpoint" with
        | none =>
          simp [api_control, controlLoop, CONTROL_POINTS, hv, hs]
        | some w =>
          cases hw2 : wdev "analogValue" 1 "presentValue" w <;>
            simp [api_control, controlLoop, CONTROL_POINTS, hv, hs, hw2]
  · intro data
    cases hl : data.linear <;> cases ha : data.angular <;>
      simp [send_cmd_vel, specTwist, hl, ha, emptyVec]

open BacnetHvac Wheeltec in
/-- Witness for C3: a body setting only `setpoint`, and a velocity body with
only linear.x present. -/
theorem control_request_forwarded_witness :
    (api_control [("setpoint", 22)] (fun _ _ _ _ => Except.ok true)).1.count
        ⟨"analogValue", 1, "presentValue", 22⟩ = 1 ∧
    send_cmd_vel ⟨some ⟨some 1, none, none⟩, none⟩
      = specTwist ⟨some ⟨some 1, none, none⟩, none⟩ :=
  ⟨(control_request_forwarded.1 [("setpoint", 22)] (fun _ _ _ _ => .ok true)
      "analogValue" 1 "presentValue" "setpoint" (by decide)).1 22 rfl,
   control_request_forwarded.2 ⟨some ⟨some 1, none, none⟩, none⟩⟩

open BacnetHvac in
/-- A device environment for which every BACnet read raises. -/
def devFail : String → Nat → String → Except String Int :=
  fun _ _ _ => .error "timeout"

open BacnetHvac in
/-- Counterexample to C4 as stated: with every `read_property` raising,
`GET /api/data` fills the JSON response with "error: ..." entries yet
answers status 200, which is not a 4xx/5xx status. -/
theorem handler_exception_status_counterexample :
    (("temperature", JEntry.str "error: timeout") ∈ (api_data devFail).1) ∧
    (api_data devFail).2 = 200 ∧
    ¬(400 ≤ (api_data devFail).2 ∧ (api_data devFail).2 ≤ 599) := by
  refine ⟨?_, rfl, by decide⟩
  simp [api_data, dataLoop, SENSOR_POINTS, devFail]

open BacnetHvac EnvMonitor in
/-- C4 (amended): device-library exceptions are contained at the handler
boundary: every `read_property` exception inside `GET /api/data` and every
`write_property` exception inside `POST /api/control` becomes an
"error: ..." entry of the JSON response while the HTTP status stays 200
(the per-point try/except swallows the error before the outer 500 path can
fire); and a malformed alarm-threshold payload in the environmental
monitoring driver leaves the state unchanged and acks with the error
payload. -/
theorem handler_exceptions_contained :
    (∀ (dev : String → Nat → String → Except String Int),
      (api_data dev).2 = 200 ∧
      ∀ (t : String) (i : Nat) (p n : String) (e : String),
        (t, i, p, n) ∈ SENSOR_POINTS → dev t i p = .error e →
        ((n, JEntry.str ("error: " ++ e)) ∈ (api_data dev).1)) ∧
    (∀ (payload : Payload)
        (wdev : String → Nat → String → Int → Except String Bool),
      (api_control payload wdev).2.2 = 200 ∧
      ∀ (t : String) (i : Nat) (p n : String) (v : Int) (e : String),
        (t, i, p, n) ∈ CONTROL_POINTS → payload.lookup n = some v →
        wdev t i p v = .error e →
        ((n, JEntry.str ("error: " ++ e)) ∈ (api_control payload wdev).2.1)) ∧
    (∀ st : EnvState,
      on_message_alarm_threshold st none
        = (st, "device/config/alarm_threshold/ack", .errAck)) := by
  refine ⟨?_, ?_, fun st => rfl⟩
  · intro dev
    refine ⟨rfl, ?_⟩
    intro t i p n e hmem he
    simp only [SENSOR_POINTS, List.mem_cons, List.not_mem_nil, or_false,
      Prod.mk.injEq] at hmem
    rcases hmem with ⟨rfl, rfl, rfl, rfl⟩ | ⟨rfl, rfl, rfl, rfl⟩ |
      ⟨rfl, rfl, rfl, rfl⟩ | ⟨rfl, rfl, rfl, rfl⟩ <;>
      simp [api_data, dataLoop, SENSOR_POINTS, he]
  · intro payload wdev
    refine ⟨rfl, ?_⟩
    intro t i p n v e hmem hv he
    simp only [CONTROL_POINTS, List.mem_cons, List.not_mem_nil, or_false,
      Prod.mk.injEq] at hmem
    rcases hmem with ⟨rfl, rfl, rfl, rfl⟩ | ⟨rfl, rfl, rfl, rfl⟩
    · cases hf : payload.lookup "fan" with
      | none => simp [api_control, controlLoop, CONTROL_POINTS, hv, hf, he]
      | some w =>
        cases hw2 : wdev "binaryValue" 1 "presentValue" w <;>
          simp [api_control, controlLoop, CONTROL_POINTS, hv, hf, he, hw2]
    · cases hs : payload.lookup "setpoint" with
      | none => simp [api_control, controlLoop, CONTROL_POINTS, hv, hs, he]
      | some w =>
        cases hw2 : wdev "analogValue" 1 "presentValue" w <;>
          simp [api_control, controlLoop, CONTROL_POINTS, hv, hs, he, hw2]

open BacnetHvac EnvMonitor in
/-- Witness for C4 (amended) with the all-raising device environment, a
control body whose single write raises, and a concrete device state. -/
theorem handler_exceptions_contained_witness :
    (("temperature", JEntry.str ("error: " ++ "timeout"))
        ∈ (api_data devFail).1) ∧
    (("setpoint", JEntry.str ("error: " ++ "down"))
        ∈ (api_control [("setpoint", 22)]
            (fun _ _ _ _ => Except.error "down")).2.1) ∧
    on_message_alarm_threshold
        ⟨22.5, 45, [("PM2.5", 12), ("CO2", 400)], 87,
         [("status", "normal"), ("led", "on")], 75, "DISABLE",
         [("PM2.5", 35), ("CO2", 800)], false⟩ none
      = (⟨22.5, 45, [("PM2.5", 12), ("CO2", 400)], 87,
          [("status", "normal"), ("led", "on")], 75, "DISABLE",
          [("PM2.5", 35), ("CO2", 800)], false⟩,
         "device/config/alarm_threshold/ack", .errAck) :=
  ⟨(handler_exceptions_contained.1 devFail).2 "analogInput" 1 "presentValue"
      "temperature" "timeout" (by decide) rfl,
   (handler_exceptions_contained.2.1 [("setpoint", 22)]
      (fun _ _ _ _ => Except.error "down")).2 "analogValue" 1 "presentValue"
      "setpoint" 22 "down" (by decide) rfl rfl,
   handler_exceptions_contained.2.2
      ⟨22.5, 45, [("PM2.5", 12), ("CO2", 400)], 87,
       [("status", "normal"), ("led", "on")], 75, "DISABLE",
       [("PM2.5", 35), ("CO2", 800)], false⟩⟩

open RtspCamera in
/-- Counterexample to C5 as stated: one iteration of the capture thread on a
streaming state with an open capture stores the raw frame in `last_frame`,
not the JPEG re-encoding of it; `cv2.imencode` only runs later, inside the
MJPEG generator. -/
theorem capture_thread_encodes_counterexample :
    (update_frames_iter ⟨some ⟨true⟩, true, none, 1⟩ true 7).lastFrame
      = some (Img.raw 7) ∧
    ¬((update_frames_iter ⟨some ⟨true⟩, true, none, 1⟩ true 7).lastFrame
      = some (imencode (Img.raw 7))) := by decide

open RtspCamera in
/-- C5 (amended): the capture thread reads frames from the decoder handle in
a loop and stores each raw frame in the single-slot mutex-guarded buffer
`last_frame`, where every newly stored frame overwrites the previous one and
no queue is kept; the JPEG re-encoding of the buffered frame happens in the
MJPEG generator when the frame is emitted. -/
theorem capture_thread_single_slot :
    (∀ (s : StreamState) (f : Nat),
      s.streaming = true → s.capture.isNone = false →
      (update_frames_iter s true f).lastFrame = some (Img.raw f)) ∧
    (∀ (o : StreamObs) (rest : List StreamObs) (f : Img),
      stopObs o = false → o.lastFrame = some f → o.encodeOk = true →
      mjpegChunks (o :: rest) = imencode f :: mjpegChunks rest) := by
  constructor
  · intro s f hs hc
    simp [update_frames_iter, hs, hc]
  · intro o rest f hstop hf henc
    simp [mjpegChunks, hstop, hf, henc]

open RtspCamera in
/-- Witness for C5 (amended): a concrete iteration overwriting a previously
buffered frame, and a generator step emitting its JPEG encoding. -/
theorem capture_thread_single_slot_witness :
    (update_frames_iter ⟨some ⟨true⟩, true, some (Img.raw 3), 1⟩ true 7).lastFrame
      = some (Img.raw 7) ∧
    mjpegChunks [⟨true, some ⟨true⟩, some (Img.raw 7), true⟩]
      = imencode (Img.raw 7) :: mjpegChunks [] :=
  ⟨capture_thread_single_slot.1 ⟨some ⟨true⟩, true, some (Img.raw 3), 1⟩ 7
      rfl rfl,
   capture_thread_single_slot.2 ⟨true, some ⟨true⟩, some (Img.raw 7), true⟩
      [] (Img.raw 7) rfl rfl rfl⟩

open RtspCamera in
/-- C6: `GET /stream.mjpg` starts the stream when inactive and answers 500
with a JSON error when that fails; otherwise it answers 200 with content
type multipart/x-mixed-replace and emits the JPEG of the latest buffered
frame as one chunk per observation; the emission ends at the first
observation with `streaming` False or `capture` None, and no chunk is ever
produced from observations after it. -/
theorem stream_endpoint_behaviour :
    (∀ obs : List StreamObs,
      do_GET_stream false false obs
        = (500, "application/json", .text startErrBody)) ∧
    (∀ (streaming startOk : Bool) (obs : List StreamObs),
      streaming = true ∨ startOk = true →
      do_GET_stream streaming startOk obs
        = (200, "multipart/x-mixed-replace; boundary=--frame",
           .multipart (mjpegChunks obs))) ∧
    (∀ (l1 : List StreamObs) (o : StreamObs) (l2 : List StreamObs),
      stopObs o = true →
      mjpegChunks (l1 ++ o :: l2) = mjpegChunks l1) ∧
    (∀ (o : StreamObs) (rest : List StreamObs) (f : Img),
      stopObs o = false → o.lastFrame = some f → o.encodeOk = true →
      mjpegChunks (o :: rest) = imencode f :: mjpegChunks rest) := by
  refine ⟨fun obs => rfl, ?_, ?_, ?_⟩
  · intro streaming startOk obs h
    rcases h with rfl | rfl
    · rfl
    · cases streaming <;> rfl
  · intro l1 o l2 hstop
    induction l1 with
    | nil => simp [mjpegChunks, hstop]
    | cons a l1 ih =>
      by_cases ha : stopObs a = true
      · simp [mjpegChunks, ha]
      · simp only [Bool.not_eq_true] at ha
        cases hf : a.lastFrame with
        | none => simpa [mjpegChunks, ha, hf] using ih
        | some f =>
          cases he : a.encodeOk <;>
            simpa [mjpegChunks, ha, hf, he] using ih
  · intro o rest f hstop hf henc
    simp [mjpegChunks, hstop, hf, henc]

open RtspCamera in
/-- Witness for C6: the failing start, a stream served while active, a
trace cut off by a stop observation, and one emitted chunk. -/
theorem stream_endpoint_behaviour_witness :
    do_GET_stream false false []
      = (500, "application/json", .text startErrBody) ∧
    do_GET_stream true true [⟨true, some ⟨true⟩, some (Img.raw 7), true⟩]
      = (200, "multipart/x-mixed-replace; boundary=--frame",
         .multipart (mjpegChunks [⟨true, some ⟨true⟩, some (Img.raw 7), true⟩])) ∧
    mjpegChunks ([⟨true, some ⟨true⟩, some (Img.raw 7), true⟩] ++
        ⟨false, none, some (Img.raw 8), true⟩ ::
          [⟨true, some ⟨true⟩, some (Img.raw 9), true⟩])
      = mjpegChunks [⟨true, some ⟨true⟩, some (Img.raw 7), true⟩] ∧
    mjpegChunks [⟨true, some ⟨true⟩, some (Img.raw 7), true⟩]
      = imencode (Img.raw 7) :: mjpegChunks [] :=
  ⟨stream_endpoint_behaviour.1 [],
   stream_endpoint_behaviour.2.1 true true
      [⟨true, some ⟨true⟩, some (Img.raw 7), true⟩] (Or.inl rfl),
   stream_endpoint_behaviour.2.2.1 [⟨true, some ⟨true⟩, some (Img.raw 7), true⟩]
      ⟨false, none, some (Img.raw 8), true⟩
      [⟨true, some ⟨true⟩, some (Img.raw 9), true⟩] rfl,
   stream_endpoint_behaviour.2.2.2 ⟨true, some ⟨true⟩, some (Img.raw 7), true⟩
      [] (Img.raw 7) rfl rfl rfl⟩

namespace RtspCamera

/-- Auxiliary invariant of the stream state machine: whenever the streaming
flag is set, the capture handle is present and at least one capture thread
is alive. -/
theorem streamInvAux : ∀ {s : StreamState}, Reachable s →
    s.streaming = true → s.capture ≠ none ∧ 1 ≤ s.threadCount := by
  intro s h
  induction h with
  | init => intro hs; simp [initState] at hs
  | @start s o hr ih =>
    by_cases h1 : (s.streaming &&
        (match s.capture with | some c => c.opened | none => false)) = true
    · simpa [start_stream, h1] using ih
    · cases o with
      | true =>
        intro _
        constructor <;> simp [start_stream, h1]
      | false =>
        intro hs
        simp [start_stream, h1] at hs
  | @stop s hr ih =>
    intro hs
    simp [stop_stream] at hs
  | @iter s readOk f hr hc ih =>
    by_cases h1 : (!s.streaming || s.capture.isNone) = true
    · intro hs
      simp only [update_frames_iter, h1, if_true] at hs ⊢
      obtain ⟨hcap, _⟩ := ih hs
      simp [hs] at h1
      exact (hcap h1).elim
    · by_cases h2 : (!readOk) = true
      · intro hs
        simp [update_frames_iter, h1, h2] at hs
      · intro hs
        simp only [update_frames_iter, h1, h2, if_false, Bool.false_eq_true,
          if_neg] at hs ⊢
        exact ih hs

end RtspCamera

open RtspCamera in
/-- Counterexample to C7 as stated: the state reached by a successful start
followed by `stop_stream` is reachable, has the streaming flag False, yet
its capture thread is still alive (`stop_stream` never joins the thread, it
only flips the flag the thread will observe later). -/
theorem streaming_flag_iff_thread_counterexample :
    Reachable (stop_stream (start_stream initState true).2) ∧
    ¬((stop_stream (start_stream initState true).2).streaming = true ↔
      1 ≤ (stop_stream (start_stream initState true).2).threadCount) :=
  ⟨Reachable.stop (Reachable.start true Reachable.init), by decide⟩

open RtspCamera in
/-- C7 (amended): in every reachable state of the rtsp_camera stream state
machine, a True streaming flag implies the background frame-update thread is
alive; the converse fails, since immediately after `stop_stream` the thread
survives with the flag already False. -/
theorem streaming_flag_implies_thread (s : StreamState) (h : Reachable s)
    (hs : s.streaming = true) : 1 ≤ s.threadCount :=
  (streamInvAux h hs).2

open RtspCamera in
/-- Witness for C7 (amended) at the state reached by a successful start. -/
theorem streaming_flag_implies_thread_witness :
    (start_stream initState true).2.streaming = true ∧
    1 ≤ (start_stream initState true).2.threadCount :=
  ⟨by decide,
   streaming_flag_implies_thread (start_stream initState true).2
      (Reachable.start true Reachable.init) (by decide)⟩

open DeviceNetworkSdk in
/-- Counterexample to C8 as stated: when the first MQTT connect call fails
and the second succeeds, `connect_mqtt` has issued the connect call twice:
the failed call is re-issued, contradicting "at most one attempt". -/
theorem no_retries_counterexample :
    connectAttempts [false, true] = 2 ∧
    ¬(connectAttempts [false, true] ≤ 1) := by decide

open DeviceNetworkSdk Hikvision in
/-- C8 (amended): the drivers do retry: `connect_mqtt` and `on_disconnect`
of the device_network_sdk driver re-issue a failed connect/reconnect call
until one succeeds (k failures followed by a success means k+1 calls), and
the hikvision_decoder's `handle_device_request` makes exactly one
reconnection attempt per request, after which the request is handled as if
the device had been connected. -/
theorem sdk_retries_until_success :
    (∀ k : Nat, connectAttempts (List.replicate k false ++ [true]) = k + 1) ∧
    (∀ k : Nat, reconnectAttempts (List.replicate k false ++ [true]) = k + 1) ∧
    (∀ (r : Bool) (instruction method : String) (outcome : DevOutcome),
      handle_device_request false true instruction method outcome
        = handle_device_request true r instruction method outcome) := by
  refine ⟨?_, ?_, fun r instruction method outcome => rfl⟩
  · intro k
    induction k with
    | zero => rfl
    | succ n ih =>
      rw [List.replicate_succ, List.cons_append]
      have hstep : connectAttempts (false :: (List.replicate n false ++ [true]))
          = 1 + connectAttempts (List.replicate n false ++ [true]) := by
        simp [connectAttempts]
      rw [hstep, ih]
      omega
  · intro k
    induction k with
    | zero => rfl
    | succ n ih =>
      rw [List.replicate_succ, List.cons_append]
      have hstep : reconnectAttempts (false :: (List.replicate n false ++ [true]))
          = 1 + reconnectAttempts (List.replicate n false ++ [true]) := by
        simp [reconnectAttempts]
      rw [hstep, ih]
      omega

open EnvMonitor in
/-- C9: the buzzer-configuration handler is atomic on error: an exact
"ENABLE"/"DISABLE" payload sets `state["buzzer"]` to the payload and acks ok
on device/config/buzzer/ack; any other payload leaves the entire device
state unchanged and acks with the error payload on the same topic. -/
theorem buzzer_config_atomic :
    ∀ (st : EnvState) (payload : String),
      ((payload = "ENABLE" ∨ payload = "DISABLE") →
        on_message_buzzer st payload
          = ({ st with buzzer := payload }, "device/config/buzzer/ack",
             .okBuzzer payload)) ∧
      (¬(payload = "ENABLE" ∨ payload = "DISABLE") →
        on_message_buzzer st payload
          = (st, "device/config/buzzer/ack", .errAck)) := by
  intro st payload
  constructor
  · intro h
    rcases h with rfl | rfl <;> rfl
  · intro h
    push_neg at h
    simp [on_message_buzzer, h.1, h.2]

open EnvMonitor in
/-- Witness for C9 on the driver's initial state: an ENABLE payload and a
malformed payload. -/
theorem buzzer_config_atomic_witness :
    on_message_buzzer
        ⟨22.5, 45, [("PM2.5", 12), ("CO2", 400)], 87,
         [("status", "normal"), ("led", "on")], 75, "DISABLE",
         [("PM2.5", 35), ("CO2", 800)], false⟩ "ENABLE"
      = (⟨22.5, 45, [("PM2.5", 12), ("CO2", 400)], 87,
          [("status", "normal"), ("led", "on")], 75, "ENABLE",
          [("PM2.5", 35), ("CO2", 800)], false⟩,
         "device/config/buzzer/ack", .okBuzzer "ENABLE") ∧
    on_message_buzzer
        ⟨22.5, 45, [("PM2.5", 12), ("CO2", 400)], 87,
         [("status", "normal"), ("led", "on")], 75, "DISABLE",
         [("PM2.5", 35), ("CO2", 800)], false⟩ "enable"
      = (⟨22.5, 45, [("PM2.5", 12), ("CO2", 400)], 87,
          [("status", "normal"), ("led", "on")], 75, "DISABLE",
          [("PM2.5", 35), ("CO2", 800)], false⟩,
         "device/config/buzzer/ack", .errAck) :=
  ⟨(buzzer_config_atomic
      ⟨22.5, 45, [("PM2.5", 12), ("CO2", 400)], 87,
       [("status", "normal"), ("led", "on")], 75, "DISABLE",
       [("PM2.5", 35), ("CO2", 800)], false⟩ "ENABLE").1 (Or.inl rfl),
   (buzzer_config_atomic
      ⟨22.5, 45, [("PM2.5", 12), ("CO2", 400)], 87,
       [("status", "normal"), ("led", "on")], 75, "DISABLE",
       [("PM2.5", 35), ("CO2", 800)], false⟩ "enable").2 (by decide)⟩
